import Mathlib

/-!
Verification of the dynamic query-construction and export pipeline of
a read-only data export service (source: app.py).

The embedding models the Python string primitives used by the source
(str.split(","), str.strip(), str.lower(), str.join) as structural
functions on character lists, the query-parameter mapping as an
association list with first-match lookup (Python dict semantics), and
SQL bind parameters as a sum of strings and integers (the source mixes
both in its positional parameter list).
-/

/-- Model of Python str.isspace for a single character: the whitespace
characters stripped by str.strip. -/
def pyIsSpace (c : Char) : Bool :=
  c = ' ' || c = '\t' || c = '\n' || c = '\r' || c = '\x0b' || c = '\x0c'

/-- Model of Python str.strip(): drop leading and trailing whitespace. -/
def pyStrip (s : String) : String :=
  String.mk (((s.data.dropWhile pyIsSpace).reverse.dropWhile pyIsSpace).reverse)

/-- Helper for pySplitComma: accumulate the current field (reversed) and
emit a field at each comma. -/
def splitCommaAux : List Char → List Char → List String
  | [], acc => [String.mk acc.reverse]
  | c :: rest, acc =>
    if c = ',' then String.mk acc.reverse :: splitCommaAux rest []
    else splitCommaAux rest (c :: acc)

/-- Model of Python s.split(","): always at least one field, empty input
gives [""]. -/
def pySplitComma (s : String) : List String := splitCommaAux s.data []

/-- Model of Python str.lower() restricted to ASCII letters (the only
characters the source compares after lowering). -/
def pyLowerChar (c : Char) : Char :=
  if 'A' ≤ c && c ≤ 'Z' then Char.ofNat (c.toNat + 32) else c

/-- Model of Python str.lower(). -/
def pyLower (s : String) : String := String.mk (s.data.map pyLowerChar)

/-- Model of Python sep.join(list). -/
def pyJoin (sep : String) : List String → String
  | [] => ""
  | [s] => s
  | s :: rest => s ++ sep ++ pyJoin sep rest

/-- A positional SQL bind parameter: the source's params list mixes the
raw string values of most filters with the integer category codes of
school_type. -/
inductive SqlParam where
  | str (v : String)
  | int (v : Int)
deriving DecidableEq, Repr

def base_query_head : String :=
  "\n        SELECT\n            d.district_name    AS district,\n            b.block            AS block,\n            c.cluster          AS cluster,\n            s.udise_id         AS udise_id,\n            s.school_name      AS school_name,\n            sm.school_management AS school_management,\n"

def category_case_sql : String :=
  "            CASE s.school_assam_category_id\n                WHEN 1 THEN \x27LP\x27\n                WHEN 2 THEN \x27UP\x27\n                WHEN 3 THEN \x27HS\x27\n                WHEN 4 THEN \x27HSS\x27\n                ELSE NULL\n            END AS school_category,\n"

def base_query_tail : String :=
  "            st.total_students,\n            st.total_students_present,\n            sf.total_teaching_staff,\n            sf.total_non_teaching_staff,\n            sf.total_teaching_staff_present,\n            sf.total_non_teaching_staff_present\n        FROM core_db.tbl_rp_school_registration_2025_2026 s\n        LEFT JOIN ref_db.district d ON s.district_id = d.district_id\n        LEFT JOIN ref_db.blocks b ON s.block_id = b.block_id\n        LEFT JOIN ref_db.cluster c ON s.cluster_id = c.cluster_id\n        LEFT JOIN ref_db.school_management sm ON s.school_management_id = sm.school_management_id\n\n        LEFT JOIN (\n            SELECT\n                s.udise_id,\n                IFNULL(SUM(registered_students), 0) AS total_students,\n                IFNULL(SUM(present), 0) AS total_students_present\n            FROM core_db.tbl_rp_students_summery_today_2025_2026 s\n            WHERE s.report_date = CURDATE()\n            GROUP BY s.udise_id\n        ) st ON s.udise_id = st.udise_id\n\n        LEFT JOIN (\n            SELECT\n                s.udise_id,\n                IFNULL(SUM(CASE WHEN staff_type_id = 1 THEN total_staff END), 0) AS total_teaching_staff,\n                IFNULL(SUM(CASE WHEN staff_type_id != 1 THEN total_staff END), 0) AS total_non_teaching_staff,\n                IFNULL(SUM(CASE WHEN staff_type_id = 1 THEN present END), 0) AS total_teaching_staff_present,\n                IFNULL(SUM(CASE WHEN staff_type_id != 1 THEN present END), 0) AS total_non_teaching_staff_present\n            FROM core_db.tbl_rp_staff_registration_2025_2026 s\n            WHERE s.report_date = CURDATE()\n            GROUP BY s.udise_id\n        ) sf ON s.udise_id = sf.udise_id\n\n        WHERE s.report_date = CURDATE()\n    "

def order_by_suffix : String :=
  " \n        ORDER BY s.district_id, s.block_id, s.cluster_id, s.udise_id\n    "

/-- The fixed base query template of build_query_and_params (app.py lines
62-112), assembled from the part before the category CASE expression, the
CASE expression itself, and the rest. -/
def base_query : String := base_query_head ++ category_case_sql ++ base_query_tail

/-- The normalization applied to one raw comma-separated filter value
(app.py line 119): split on commas, strip each segment, drop falsy
(empty) segments. -/
def segments (s : String) : List String :=
  ((pySplitComma s).map pyStrip).filter (fun v => v != "")

/-- Placeholder string for n bound values (app.py line 121):
", ".join(["%s"] * n). -/
def placeholders (n : Nat) : String := pyJoin ", " (List.replicate n "%s")

/-- Model of the inner helper add_in_clause (app.py lines 117-123): the
predicate strings and parameters this helper appends to the accumulating
filters and params lists for one field / parameter name, given the
query-parameter mapping. Python truthiness of the raw value and of the
normalized list is modelled by the two emptiness tests. -/
def add_in_clause (query_params : List (String × String))
    (field param_name : String) : List String × List SqlParam :=
  match query_params.lookup param_name with
  | some v =>
    if v ≠ "" then
      let values := segments v
      if values ≠ [] then
        ([field ++ " IN (" ++ placeholders values.length ++ ")"],
         values.map SqlParam.str)
      else ([], [])
    else ([], [])
  | none => ([], [])

/-- The fixed school_type code table (app.py line 134):
mappings = \x7b"LP": 1, "UP": 2, "HS": 3, "HSS": 4\x7d, as a partial map. -/
def mappings : String → Option Int
  | "LP" => some 1
  | "UP" => some 2
  | "HS" => some 3
  | "HSS" => some 4
  | _ => none

/-- Model of the school_type branch (app.py lines 133-140): the predicate
strings and parameters appended for the school_type key. The list
comprehension over tokens with a membership guard is filterMap over the
code table. -/
def school_type_clause (query_params : List (String × String)) :
    List String × List SqlParam :=
  match query_params.lookup "school_type" with
  | some v =>
    if v ≠ "" then
      let types := segments v
      let ids := types.filterMap mappings
      if ids ≠ [] then
        (["s.school_assam_category_id IN (" ++ placeholders ids.length ++ ")"],
         ids.map SqlParam.int)
      else ([], [])
    else ([], [])
  | none => ([], [])

/-- Model of build_query_and_params (app.py lines 56-149). The mutable
filters / params lists are the concatenations of each helper call's
contribution, in call order: district, block, cluster, school_management,
geography, then school_type. -/
def build_query_and_params (query_params : List (String × String)) :
    String × List SqlParam :=
  let d := add_in_clause query_params "d.district_name" "district"
  let b := add_in_clause query_params "b.block" "block"
  let c := add_in_clause query_params "c.cluster" "cluster"
  let m := add_in_clause query_params "sm.school_management" "school_management"
  let g := add_in_clause query_params "g.geography" "geography"
  let t := school_type_clause query_params
  let filters := d.1 ++ b.1 ++ c.1 ++ m.1 ++ g.1 ++ t.1
  let params := d.2 ++ b.2 ++ c.2 ++ m.2 ++ g.2 ++ t.2
  let q := if filters = [] then base_query
           else base_query ++ " AND " ++ pyJoin " AND " filters
  (q ++ order_by_suffix, params)

/-- Specification-side view: the normalized value list a query-parameter
mapping supplies for one recognized key (empty when the key is absent;
segments of the raw value otherwise — an empty or all-whitespace raw
value normalizes to []). -/
def filter_values (query_params : List (String × String)) (name : String) :
    List String :=
  match query_params.lookup name with
  | some v => segments v
  | none => []

/-- Specification-side view: the surviving integer category codes of the
school_type filter value, in input order. -/
def type_ids (query_params : List (String × String)) : List Int :=
  (filter_values query_params "school_type").filterMap mappings

/-- The predicate strings one filter contributes, as a function of the
field name and the number of bound values: none when the count is zero,
otherwise a single IN clause with that many placeholders. -/
def predicate_of (field : String) (n : Nat) : List String :=
  if n = 0 then [] else [field ++ " IN (" ++ placeholders n ++ ")"]

/-- The shape of a filter mapping: how many bound values each of the six
recognized keys contributes (for school_type, the count of tokens that
survive the code table). -/
def filter_shape (query_params : List (String × String)) :
    Nat × Nat × Nat × Nat × Nat × Nat :=
  ((filter_values query_params "district").length,
   (filter_values query_params "block").length,
   (filter_values query_params "cluster").length,
   (filter_values query_params "school_management").length,
   (filter_values query_params "geography").length,
   (type_ids query_params).length)

/-- The query text as a function of the shape alone. -/
def text_of_shape : Nat × Nat × Nat × Nat × Nat × Nat → String
  | (nd, nb, nc, nm, ng, nt) =>
    let fs := predicate_of "d.district_name" nd ++ predicate_of "b.block" nb ++
      predicate_of "c.cluster" nc ++ predicate_of "sm.school_management" nm ++
      predicate_of "g.geography" ng ++
      predicate_of "s.school_assam_category_id" nt
    (if fs = [] then base_query
     else base_query ++ " AND " ++ pyJoin " AND " fs) ++ order_by_suffix

/-- The full parameter list, group by group in append order. -/
def full_params (query_params : List (String × String)) : List SqlParam :=
  (filter_values query_params "district").map SqlParam.str ++
  (filter_values query_params "block").map SqlParam.str ++
  (filter_values query_params "cluster").map SqlParam.str ++
  (filter_values query_params "school_management").map SqlParam.str ++
  (filter_values query_params "geography").map SqlParam.str ++
  (type_ids query_params).map SqlParam.int

/-- The six predicate-string lists in append order, mirroring the filters
list accumulated inside build_query_and_params. -/
def filter_clauses (query_params : List (String × String)) : List String :=
  (add_in_clause query_params "d.district_name" "district").1 ++
  (add_in_clause query_params "b.block" "block").1 ++
  (add_in_clause query_params "c.cluster" "cluster").1 ++
  (add_in_clause query_params "sm.school_management" "school_management").1 ++
  (add_in_clause query_params "g.geography" "geography").1 ++
  (school_type_clause query_params).1

/-- Model of the CASE expression over s.school_assam_category_id in the
base query (app.py lines 70-76): a nullable numeric category id maps to
one of four labels, anything else (including NULL) to NULL. -/
def school_category_case (school_assam_category_id : Option Int) :
    Option String :=
  match school_assam_category_id with
  | some 1 => some "LP"
  | some 2 => some "UP"
  | some 3 => some "HS"
  | some 4 => some "HSS"
  | _ => none

/-- A cell of the result row set: the values pandas hands back are
strings, integers, or NULL. -/
inductive PyVal where
  | s (v : String)
  | i (v : Int)
  | null
deriving DecidableEq, Repr

/-- The row set the external query execution produces, as pandas holds
it: an ordered column list and one ordered value list per row. -/
structure DataFrame where
  columns : List String
  rows : List (List PyVal)
deriving DecidableEq, Repr

/-- Rendering of one cell as CSV text (numbers printed, NULL empty). -/
def pyval_to_field : PyVal → String
  | PyVal.s v => v
  | PyVal.i v => toString v
  | PyVal.null => ""

/-- Minimal CSV quoting discipline of df.to_csv: quote a field holding a
delimiter, quote character or line break, doubling embedded quotes. -/
def csv_escape_field (s : String) : String :=
  if s.contains ',' || s.contains '"' || s.contains '\n' then
    "\"" ++ s.replace "\"" "\"\"" ++ "\""
  else s

/-- One CSV line: comma-joined cells plus a line break. -/
def csv_line (cells : List String) : String := pyJoin "," cells ++ "\n"

/-- Model of df.to_csv(index=False): a header line then one line per
row, in column order. -/
def df_to_csv (df : DataFrame) : String :=
  csv_line (df.columns.map csv_escape_field) ++
  pyJoin "" (df.rows.map
    (fun r => csv_line (r.map (fun v => csv_escape_field (pyval_to_field v)))))

/-- Model of df.to_dict(orient="records"): one record per row pairing
column names with cell values in column order. -/
def df_to_records (df : DataFrame) : List (List (String × PyVal)) :=
  df.rows.map (fun r => df.columns.zip r)

/-- The two response bodies the export endpoint can produce. -/
inductive ExportOut where
  | json (records : List (List (String × PyVal)))
  | csv (text : String)
deriving DecidableEq, Repr

/-- Model of out_format (app.py line 165): the raw format query value,
defaulted to "csv" when absent, lowercased. -/
def out_format (q : List (String × String)) : String :=
  pyLower ((q.lookup "format").getD "csv")

/-- Model of the rendering branch of the export endpoint (app.py lines
175-184): JSON records when the lowered format equals "json", otherwise
the CSV rendering. -/
def render_export (df : DataFrame) (fmt : String) : ExportOut :=
  if fmt = "json" then ExportOut.json (df_to_records df)
  else ExportOut.csv (df_to_csv df)

/-- The export endpoint's response body for a given row set and raw
query mapping. -/
def export_response (df : DataFrame) (q : List (String × String)) : ExportOut :=
  render_export df (out_format q)

/-- A small concrete row set used to instantiate export theorems. -/
def df0 : DataFrame := ⟨["district", "udise_id"], [[PyVal.s "K", PyVal.s "1"]]⟩

/-- An empty raw value normalizes to no segments. -/
lemma segments_nil : segments "" = [] := rfl

/-- Characterization of add_in_clause: its contribution is determined by
the normalized value list of the parameter name — one IN predicate with
one placeholder per value, and the values as string parameters. -/
lemma add_in_clause_eq (qp : List (String × String)) (field name : String) :
    add_in_clause qp field name =
      (predicate_of field (filter_values qp name).length,
       (filter_values qp name).map SqlParam.str) := by
  unfold add_in_clause filter_values
  cases hl : qp.lookup name with
  | none => simp [predicate_of]
  | some v =>
    by_cases hv : v = ""
    · subst hv
      simp [segments_nil, predicate_of]
    · by_cases hs : segments v = []
      · simp [hv, hs, predicate_of]
      · have hlen : (segments v).length ≠ 0 := by
          simpa [List.length_eq_zero] using hs
        simp [hv, hs, predicate_of, hlen]

/-- Characterization of the school_type branch: its contribution is
determined by the surviving category codes — one IN predicate with one
placeholder per code, and the codes as integer parameters. -/
lemma school_type_clause_eq (qp : List (String × String)) :
    school_type_clause qp =
      (predicate_of "s.school_assam_category_id" (type_ids qp).length,
       (type_ids qp).map SqlParam.int) := by
  unfold school_type_clause type_ids filter_values
  cases hl : qp.lookup "school_type" with
  | none => simp [predicate_of]
  | some v =>
    by_cases hv : v = ""
    · subst hv
      simp [segments_nil, predicate_of]
    · by_cases hi : (segments v).filterMap mappings = []
      · simp [hv, hi, predicate_of]
      · have hlen : ((segments v).filterMap mappings).length ≠ 0 := by
          simpa [List.length_eq_zero] using hi
        simp [hv, hi, predicate_of, hlen]

/-- Full functional characterization of build_query_and_params: the query
text is a function of the filter shape alone, and the parameter list is
the six value groups concatenated in append order. -/
lemma build_spec (qp : List (String × String)) :
    build_query_and_params qp =
      (text_of_shape (filter_shape qp), full_params qp) := by
  simp only [build_query_and_params, add_in_clause_eq, school_type_clause_eq,
    text_of_shape, filter_shape, full_params]

/-- The query text in terms of the accumulated predicate-string list. -/
lemma build_text_clauses (qp : List (String × String)) :
    (build_query_and_params qp).1 =
      (if filter_clauses qp = [] then base_query
       else base_query ++ " AND " ++ pyJoin " AND " (filter_clauses qp)) ++
      order_by_suffix := rfl

/-- C1 (amended): the query text returned by build_query_and_params
contains no filter value interpolated as text — it depends on the filter
map only through its shape: for each of the five string-valued keys the
number of non-blank comma-separated segments, and for school_type the
number of tokens that survive the code table. Any two maps with equal
shapes yield identical query texts. -/
theorem C1_query_text_shape_only (qp1 qp2 : List (String × String))
    (h : filter_shape qp1 = filter_shape qp2) :
    (build_query_and_params qp1).1 = (build_query_and_params qp2).1 := by
  have e1 : (build_query_and_params qp1).1 = text_of_shape (filter_shape qp1) := by
    rw [build_spec]
  have e2 : (build_query_and_params qp2).1 = text_of_shape (filter_shape qp2) := by
    rw [build_spec]
  rw [e1, e2, h]

/-- C1 witness: two maps of equal shape with different district values
produce identical query texts. -/
theorem C1_witness :
    filter_shape [("district", "Kamrup")] = filter_shape [("district", "Nalbari")] ∧
    (build_query_and_params [("district", "Kamrup")]).1 =
      (build_query_and_params [("district", "Nalbari")]).1 :=
  ⟨by decide, C1_query_text_shape_only _ _ (by decide)⟩

/-- C1 counterexample: the claim's equivalence fails as stated — the two
school_type values "LP" and "XX" each have one non-blank segment and set
the same keys, yet the returned query texts differ, because the text
depends on how many school_type tokens the code table accepts, not on
the segment count. -/
theorem C1_counterexample :
    (segments "LP").length = (segments "XX").length ∧
    (build_query_and_params [("school_type", "LP")]).1 ≠
      (build_query_and_params [("school_type", "XX")]).1 := by
  refine ⟨by decide, ?_⟩
  have h1 : (build_query_and_params [("school_type", "LP")]).1 =
      ((base_query ++ " AND ") ++ "s.school_assam_category_id IN (%s)") ++
        order_by_suffix := rfl
  have h2 : (build_query_and_params [("school_type", "XX")]).1 =
      base_query ++ order_by_suffix := rfl
  intro heq
  rw [h1, h2] at heq
  have hlen := congrArg String.length heq
  simp only [String.length_append] at hlen
  have hpos : 0 < (" AND " : String).length := by decide
  omega

/-- C2 (amended): the parameter list is ordered exactly district values,
block values, cluster values, school_management values, geography
values, then the mapped school_type integer codes — and the query text
is the shape-determined template whose IN predicates carry one
placeholder per parameter, group by group in the same order. -/
theorem C2_param_order (qp : List (String × String)) :
    (build_query_and_params qp).2 =
      (filter_values qp "district").map SqlParam.str ++
      (filter_values qp "block").map SqlParam.str ++
      (filter_values qp "cluster").map SqlParam.str ++
      (filter_values qp "school_management").map SqlParam.str ++
      (filter_values qp "geography").map SqlParam.str ++
      (type_ids qp).map SqlParam.int ∧
    (build_query_and_params qp).1 = text_of_shape (filter_shape qp) := by
  constructor
  · have e : (build_query_and_params qp).2 = full_params qp := by rw [build_spec]
    rw [e]
    rfl
  · rw [build_spec]

/-- C2 counterexample: with a geography value present, the parameter list
interleaves it between the school_management values and the school_type
codes, so the claimed order (management directly followed by the type
codes, nothing else interleaved) fails. -/
theorem C2_counterexample :
    (build_query_and_params
        [("school_management", "M"), ("geography", "G"), ("school_type", "LP")]).2 =
      [SqlParam.str "M", SqlParam.str "G", SqlParam.int 1] ∧
    [SqlParam.str "M", SqlParam.str "G", SqlParam.int 1] ≠
      [SqlParam.str "M", SqlParam.int 1] :=
  ⟨by decide, by decide⟩

/-- C3 counterexample: the geography key is not ignored — a map carrying
geography "G" yields the parameter list [G], different from the empty
map's empty parameter list. -/
theorem C3_counterexample :
    (build_query_and_params [("geography", "G")]).2 = [SqlParam.str "G"] ∧
    (build_query_and_params [("geography", "G")]).2 ≠
      (build_query_and_params ([] : List (String × String))).2 :=
  ⟨by decide, by decide⟩

/-- C3 (amended): the geography key is treated like every other string
filter: when its value has non-blank segments, the predicate
g.geography IN (...) — referencing an alias the base query never defines
— is among the appended filter predicates, and each segment travels in
the parameter list. -/
theorem C3_geography_not_ignored (qp : List (String × String))
    (h : filter_values qp "geography" ≠ []) :
    ("g.geography IN (" ++ placeholders (filter_values qp "geography").length ++ ")") ∈
      filter_clauses qp ∧
    ∀ x ∈ filter_values qp "geography",
      SqlParam.str x ∈ (build_query_and_params qp).2 := by
  have hlen : (filter_values qp "geography").length ≠ 0 := by
    simpa [List.length_eq_zero] using h
  constructor
  · have hg : (add_in_clause qp "g.geography" "geography").1 =
        ["g.geography IN (" ++
          placeholders (filter_values qp "geography").length ++ ")"] := by
      rw [add_in_clause_eq]
      simp [predicate_of, hlen]
    unfold filter_clauses
    refine List.mem_append.mpr (Or.inl ?_)
    refine List.mem_append.mpr (Or.inr ?_)
    rw [hg]
    exact List.mem_singleton.mpr rfl
  · intro x hx
    have e : (build_query_and_params qp).2 = full_params qp := by rw [build_spec]
    rw [e]
    unfold full_params
    have hm : SqlParam.str x ∈ (filter_values qp "geography").map SqlParam.str :=
      List.mem_map_of_mem _ hx
    exact List.mem_append.mpr (Or.inl (List.mem_append.mpr (Or.inr hm)))

/-- C3 witness: for the concrete map carrying geography "G" the predicate
is appended and the value is bound. -/
theorem C3_witness :
    filter_values [("geography", "G")] "geography" ≠ [] ∧
    (("g.geography IN (" ++
        placeholders (filter_values [("geography", "G")] "geography").length ++ ")") ∈
      filter_clauses [("geography", "G")] ∧
    ∀ x ∈ filter_values [("geography", "G")] "geography",
      SqlParam.str x ∈ (build_query_and_params [("geography", "G")]).2) :=
  ⟨by decide, C3_geography_not_ignored _ (by decide)⟩

/-- C4 counterexample: duplicate segments are not removed — the district
value "A,A" produces two bound parameters, not one. -/
theorem C4_counterexample :
    (build_query_and_params [("district", "A,A")]).2 =
      [SqlParam.str "A", SqlParam.str "A"] ∧
    [SqlParam.str "A", SqlParam.str "A"] ≠ [SqlParam.str "A"] :=
  ⟨by decide, by decide⟩

/-- C4 (amended): a comma-separated filter value is split on commas, each
segment stripped, and blank segments dropped; the remaining segments —
duplicates included — keep their input order both in the parameter list
and in the IN predicate, which carries exactly one placeholder per
remaining segment. -/
theorem C4_blank_segments_dropped_order_kept (v : String) :
    segments v = ((pySplitComma v).map pyStrip).filter (fun s => s != "") ∧
    (build_query_and_params [("district", v)]).2 = (segments v).map SqlParam.str ∧
    (build_query_and_params [("district", v)]).1 =
      (if segments v = [] then base_query
       else base_query ++ " AND " ++
         ("d.district_name IN (" ++ placeholders (segments v).length ++ ")")) ++
      order_by_suffix := by
  refine ⟨rfl, ?_, ?_⟩
  · have e : (build_query_and_params [("district", v)]).2 =
        full_params [("district", v)] := by rw [build_spec]
    rw [e]
    unfold full_params
    rw [show filter_values [("district", v)] "district" = segments v from rfl,
        show filter_values [("district", v)] "block" = [] from rfl,
        show filter_values [("district", v)] "cluster" = [] from rfl,
        show filter_values [("district", v)] "school_management" = [] from rfl,
        show filter_values [("district", v)] "geography" = [] from rfl,
        show type_ids [("district", v)] = [] from rfl]
    simp
  · have e : (build_query_and_params [("district", v)]).1 =
        text_of_shape (filter_shape [("district", v)]) := by rw [build_spec]
    rw [e]
    rw [show filter_shape [("district", v)] = ((segments v).length, 0, 0, 0, 0, 0)
        from rfl]
    by_cases h0 : segments v = []
    · have hl : (segments v).length = 0 := by simp [h0]
      rw [hl, if_pos h0]
      rfl
    · have hl : (segments v).length ≠ 0 := by
        simpa [List.length_eq_zero] using h0
      rw [if_neg h0]
      unfold text_of_shape
      simp only [predicate_of, if_neg hl]
      rfl

/-- C5: each school_type token is mapped through the case-sensitive table
LP to 1, UP to 2, HS to 3, HSS to 4; unmapped tokens are dropped without
error; surviving codes keep input order in the parameter list; the value
"LP,UP,XX" yields exactly the codes [1, 2] with a two-placeholder IN
predicate on the numeric category column, and "ZZ" yields no category
predicate and no parameters. -/
theorem C5_school_type_codes (v : String) :
    (build_query_and_params [("school_type", v)]).2 =
      ((segments v).filterMap mappings).map SqlParam.int ∧
    mappings "LP" = some 1 ∧ mappings "UP" = some 2 ∧
    mappings "HS" = some 3 ∧ mappings "HSS" = some 4 ∧ mappings "lp" = none ∧
    (build_query_and_params [("school_type", "LP,UP,XX")]).2 =
      [SqlParam.int 1, SqlParam.int 2] ∧
    (build_query_and_params [("school_type", "ZZ")]).2 = [] ∧
    (build_query_and_params [("school_type", "ZZ")]).1 =
      base_query ++ order_by_suffix ∧
    (build_query_and_params [("school_type", "LP,UP,XX")]).1 =
      ((base_query ++ " AND ") ++
        ("s.school_assam_category_id IN (" ++ placeholders 2 ++ ")")) ++
      order_by_suffix := by
  refine ⟨?_, rfl, rfl, rfl, rfl, rfl, by decide, by decide, rfl, rfl⟩
  have e : (build_query_and_params [("school_type", v)]).2 =
      full_params [("school_type", v)] := by rw [build_spec]
  rw [e]
  rfl

/-- C6: build_query_and_params is a total function of the filter map (the
embedding of every partial Python operation the source performs is
guarded exactly as in the source), and whenever every recognized key is
absent, empty, or normalizes to no segments, it returns the base query —
no predicate beyond the date restriction — with an empty parameter
list. -/
theorem C6_no_filters (qp : List (String × String))
    (h : ∀ name ∈ (["district", "block", "cluster", "school_management",
        "geography", "school_type"] : List String),
      filter_values qp name = []) :
    build_query_and_params qp = (base_query ++ order_by_suffix, []) := by
  have hd := h "district" (by simp)
  have hb := h "block" (by simp)
  have hc := h "cluster" (by simp)
  have hm := h "school_management" (by simp)
  have hg := h "geography" (by simp)
  have ht := h "school_type" (by simp)
  rw [build_spec]
  have hshape : filter_shape qp = (0, 0, 0, 0, 0, 0) := by
    simp [filter_shape, type_ids, hd, hb, hc, hm, hg, ht]
  have hparams : full_params qp = [] := by
    simp [full_params, type_ids, hd, hb, hc, hm, hg, ht]
  rw [hshape, hparams]
  rfl

/-- C6 witness: a map whose district value is only commas and whitespace
and whose school_type is empty normalizes to no segments for every
recognized key, and produces the bare base query with no parameters. -/
theorem C6_witness :
    (∀ name ∈ (["district", "block", "cluster", "school_management",
        "geography", "school_type"] : List String),
      filter_values [("district", " , ,"), ("school_type", "")] name = []) ∧
    build_query_and_params [("district", " , ,"), ("school_type", "")] =
      (base_query ++ order_by_suffix, []) :=
  ⟨by decide, C6_no_filters _ (by decide)⟩

/-- C7: for every filter map the query text ends with the fixed ascending
multi-key ORDER BY over the surrogate id columns district_id, block_id,
cluster_id, udise_id. -/
theorem C7_order_by_always_last (qp : List (String × String)) :
    order_by_suffix =
      " \n        ORDER BY s.district_id, s.block_id, s.cluster_id, s.udise_id\n    " ∧
    ∃ p, (build_query_and_params qp).1 = p ++ order_by_suffix :=
  ⟨rfl,
   ⟨if filter_clauses qp = [] then base_query
    else base_query ++ " AND " ++ pyJoin " AND " (filter_clauses qp),
    build_text_clauses qp⟩⟩

/-- C8: the category label is computed by the CASE expression embedded in
the base query text, and that expression maps every nullable category id
to NULL or to one of exactly the four labels LP, UP, HS, HSS (ids 1-4). -/
theorem C8_category_label_enum (x : Option Int) :
    (∃ l r, base_query = l ++ category_case_sql ++ r) ∧
    (school_category_case x = none ∨
      school_category_case x ∈ [some "LP", some "UP", some "HS", some "HSS"]) := by
  refine ⟨⟨base_query_head, base_query_tail, rfl⟩, ?_⟩
  cases x with
  | none => exact Or.inl rfl
  | some n =>
    unfold school_category_case
    split <;> simp

/-- C9 counterexample: the format value "JSON" differs from "json", yet it
selects the JSON rendering, so not every non-"json" format value renders
like the csv case. -/
theorem C9_counterexample :
    ("JSON" : String) ≠ "json" ∧
    export_response df0 [("format", "JSON")] = ExportOut.json (df_to_records df0) ∧
    export_response df0 [("format", "JSON")] ≠
      export_response df0 [("format", "csv")] := by
  have h1 : out_format [("format", "JSON")] = "json" := by decide
  have h2 : out_format [("format", "csv")] = "csv" := by decide
  have e1 : export_response df0 [("format", "JSON")] =
      ExportOut.json (df_to_records df0) := by
    unfold export_response render_export
    rw [h1, if_pos rfl]
  have e2 : export_response df0 [("format", "csv")] =
      ExportOut.csv (df_to_csv df0) := by
    unfold export_response render_export
    rw [h2, if_neg (by decide)]
  refine ⟨by decide, e1, ?_⟩
  rw [e1, e2]
  intro hcontra
  exact ExportOut.noConfusion hcontra

/-- C9 (amended): every row set and every format value whose lowercasing
is not "json" — including unknown values such as "xml" — renders exactly
as the csv case; unsupported formats are not an error. -/
theorem C9_csv_fallback (df : DataFrame) (q : List (String × String))
    (h : out_format q ≠ "json") :
    export_response df q = export_response df [("format", "csv")] := by
  have h2 : out_format [("format", "csv")] = "csv" := by decide
  unfold export_response render_export
  rw [if_neg h, h2, if_neg (by decide)]

/-- C9 witness: the unknown format "xml" renders identically to the csv
case on a concrete row set. -/
theorem C9_witness :
    out_format [("format", "xml")] ≠ "json" ∧
    export_response df0 [("format", "xml")] = export_response df0 [("format", "csv")] :=
  ⟨by decide, C9_csv_fallback df0 [("format", "xml")] (by decide)⟩

/-- C10: the output format is matched case-insensitively — the supplied
value is lowercased before comparison, so "JSON" and "Json" select JSON
rendering exactly like "json", while "CSV" selects CSV rendering. -/
theorem C10_format_case_insensitive (df : DataFrame) :
    export_response df [("format", "JSON")] = ExportOut.json (df_to_records df) ∧
    export_response df [("format", "Json")] = ExportOut.json (df_to_records df) ∧
    export_response df [("format", "json")] = ExportOut.json (df_to_records df) ∧
    export_response df [("format", "CSV")] = ExportOut.csv (df_to_csv df) := by
  have hJ1 : out_format [("format", "JSON")] = "json" := by decide
  have hJ2 : out_format [("format", "Json")] = "json" := by decide
  have hJ3 : out_format [("format", "json")] = "json" := by decide
  have hC : out_format [("format", "CSV")] = "csv" := by decide
  refine ⟨?_, ?_, ?_, ?_⟩ <;> unfold export_response render_export
  · rw [hJ1, if_pos rfl]
  · rw [hJ2, if_pos rfl]
  · rw [hJ3, if_pos rfl]
  · rw [hC, if_neg (by decide)]
